import Mathlib

/-
Verification of the Type-C port-management subsystem of the
OpenDevicePartnership embedded-services repository.

Shallow embedding of:
- the Controller Wrapper bridge (type-c-service/src/wrapper.rs),
- the newer wrapper PD helpers (type-c-service/src/wrapper/pd.rs),
- the Type-C Service event processing (type-c-service/src/service/mod.rs),
- the power-policy reaction logic (type-c-service/src/service/power.rs),
- the UCSI PPM front end (type-c-service/src/service/ucsi.rs).

State is passed explicitly; driver calls become oracle parameters; message
sends are collected into result lists.
-/

namespace EmbeddedServices

/-- Decidable equality for Except results, needed to evaluate responses. -/
instance {ε α : Type} [DecidableEq ε] [DecidableEq α] : DecidableEq (Except ε α) := fun x y =>
  match x, y with
  | Except.ok a, Except.ok b =>
    if h : a = b then Decidable.isTrue (by subst h; rfl)
    else Decidable.isFalse (by intro hc; injection hc; contradiction)
  | Except.ok _, Except.error _ => Decidable.isFalse (by intro hc; exact Except.noConfusion hc)
  | Except.error _, Except.ok _ => Decidable.isFalse (by intro hc; exact Except.noConfusion hc)
  | Except.error a, Except.error b =>
    if h : a = b then Decidable.isTrue (by subst h; rfl)
    else Decidable.isFalse (by intro hc; injection hc; contradiction)

/-- Protocol-level PD errors (embedded_usb_pd::PdError). -/
inductive PdError where
  | invalidPort
  | invalidController
  | invalidMode
  | invalidParams
  | invalidResponse
  | failed
  | busy
  | timeout
deriving DecidableEq, Repr

/-- Driver call failure: a low-level bus fault or a protocol-level PD error
(embedded_usb_pd::Error<BusError>, the bus payload abstracted away). -/
inductive DriverError where
  | bus
  | pd (e : PdError)
deriving DecidableEq, Repr

/-- Power capability, the voltage/current pair exchanged with the power policy
service, collapsed to a single abstract value (its identity is all the claims need). -/
abbrev PowerCapability : Type := Nat

/-- Power contract tag (embedded_services::type_c::controller::Contract). -/
inductive Contract where
  | sink (cap : PowerCapability)
  | source (cap : PowerCapability)
deriving DecidableEq, Repr

/-- Port status snapshot (embedded_services::type_c::controller::PortStatus).
The fields beyond the three in the checked-in controller.rs (epr,
available_sink_contract, unconstrained_power) are taken from their uses in
service/power.rs and wrapper/pd.rs. -/
structure PortStatus where
  contract : Option Contract
  connectionPresent : Bool
  debugConnection : Bool
  epr : Bool
  availableSinkContract : Option PowerCapability
  unconstrainedPower : Bool
deriving DecidableEq, Repr

/-- Default (all-clear) port status, as produced by PortStatus::default(). -/
def PortStatus.none : PortStatus :=
  { contract := Option.none
    connectionPresent := false
    debugConnection := false
    epr := false
    availableSinkContract := Option.none
    unconstrainedPower := false }

/-- Modelled from the spec: PortStatus::is_connected (source not under src/);
the spec describes connectedness as the connection_present flag of the snapshot. -/
def PortStatus.isConnected (s : PortStatus) : Bool := s.connectionPresent

/-- Modelled from the spec: PortStatus::is_debug_accessory (source not under
src/); the spec describes the debug-accessory flag as the debug_connection field. -/
def PortStatus.isDebugAccessory (s : PortStatus) : Bool := s.debugConnection

namespace Wrapper

/-
Model of the Controller Wrapper in type-c-service/src/wrapper.rs (the
version with a plain Controller trait and per-port active_events cells).
-/

/-- Per-port event bitset (embedded_services::type_c::event::PortEventKind),
modelled as a raw bitmask; the wrapper command path only stores, returns and
clears it, so only equality and the NONE value (0) matter here. -/
abbrev PortEventKind : Type := Nat

/-- PortEventKind::NONE. -/
def PortEventKind.NONE : PortEventKind := (0 : Nat)

/-- Result of ControllerWrapper::get_power_device (wrapper.rs lines 61-66).
The code checks port.0 > N and otherwise indexes self.power[port.0]; an
out-of-bounds index (a Rust panic) is modelled as Option.none.
The device itself is represented by its index. -/
def get_power_device (N : Nat) (p : Nat) : Option (Except PdError Nat) :=
  if p > N then
    some (Except.error PdError.invalidPort)
  else if p < N then
    some (Except.ok p)
  else
    none

/-- Port-specific command data (embedded_services::type_c::controller::PortCommandData). -/
inductive PortCommandData where
  | portStatus
  | getEvent
deriving DecidableEq, Repr

/-- Port-specific command (embedded_services::type_c::controller::PortCommand):
a global port id plus the data. -/
structure PortCommand where
  port : Nat
  data : PortCommandData
deriving DecidableEq, Repr

/-- Port-specific response data (embedded_services::type_c::controller::PortResponseData). -/
inductive PortResponseData where
  | complete
  | portStatus (s : PortStatus)
  | event (e : PortEventKind)
deriving DecidableEq, Repr

/-- ControllerWrapper::process_port_command (wrapper.rs lines 262-281).
driverStatus is the controller driver's get_port_status oracle, indexed by
local port. The addressed port command.port is never consulted: the code
hardcodes LocalPortId(0) and active_events[0]. Returns the response sent on
the controller's response channel and the updated active_events array. -/
def process_port_command (activeEvents : List PortEventKind)
    (driverStatus : Nat → Except DriverError PortStatus) (command : PortCommand) :
    Except PdError PortResponseData × List PortEventKind :=
  match command.data with
  | PortCommandData.portStatus =>
    match driverStatus 0 with
    | Except.ok status => (Except.ok (PortResponseData.portStatus status), activeEvents)
    | Except.error DriverError.bus => (Except.error PdError.failed, activeEvents)
    | Except.error (DriverError.pd e) => (Except.error e, activeEvents)
  | PortCommandData.getEvent =>
    let event := activeEvents.getD 0 PortEventKind.NONE
    (Except.ok (PortResponseData.event event), activeEvents.set 0 PortEventKind.NONE)

/-- Power-policy request data carried on a device's request channel
(embedded_services::power::policy::device::RequestData); variants beyond the
two the wrapper matches are collapsed into otherRequest. -/
inductive RequestData where
  | connectConsumer (cap : PowerCapability)
  | disconnect
  | otherRequest
deriving DecidableEq, Repr

/-- Power-policy error type used in responses (power policy Error::Failed). -/
inductive PolicyError where
  | failed
deriving DecidableEq, Repr

/-- Power-policy response data (power policy device::ResponseData::Complete). -/
inductive PolicyResponseData where
  | complete
deriving DecidableEq, Repr

/-- Observable effects of ControllerWrapper::process_power_command: the
enable flags passed to the driver's enable_sink_path for the addressed port,
and the responses sent on that port's power-policy device channel. -/
structure PowerCmdEffects where
  sinkPathCalls : List Bool
  responses : List (Except PolicyError PolicyResponseData)
deriving DecidableEq, Repr

/-- Driver status oracle distinguishing local ports: port 0 reports a
present connection, other ports do not. -/
def exDriverStatus : Nat → Except DriverError PortStatus :=
  fun i => Except.ok { PortStatus.none with connectionPresent := decide (i = 0) }

/-- ControllerWrapper::process_power_command (wrapper.rs lines 229-260).
enableSinkPath is the driver oracle for enable_sink_path on the addressed
port. A failed get_power_device lookup logs and returns with no response;
the out-of-bounds index at p = N is modelled as Option.none (panic). -/
def process_power_command (N : Nat) (p : Nat) (command : RequestData)
    (enableSinkPath : Bool → Except DriverError Unit) : Option PowerCmdEffects :=
  match get_power_device N p with
  | Option.none => Option.none
  | some (Except.error _) => some { sinkPathCalls := [], responses := [] }
  | some (Except.ok _) =>
    some (match command with
      | RequestData.connectConsumer _ =>
        match enableSinkPath true with
        | Except.error _ =>
          { sinkPathCalls := [true], responses := [Except.error PolicyError.failed] }
        | Except.ok _ =>
          { sinkPathCalls := [true], responses := [Except.ok PolicyResponseData.complete] }
      | RequestData.disconnect =>
        match enableSinkPath false with
        | Except.error _ =>
          { sinkPathCalls := [false], responses := [Except.error PolicyError.failed] }
        | Except.ok _ =>
          { sinkPathCalls := [false], responses := [Except.ok PolicyResponseData.complete] }
      | RequestData.otherRequest =>
        { sinkPathCalls := [], responses := [Except.ok PolicyResponseData.complete] })

end Wrapper

namespace Service

/-
Model of the Type-C Service in type-c-service/src/service/mod.rs and
service/power.rs.
-/

/-- Maximum number of ports the service supports (service/mod.rs). -/
def MAX_SUPPORTED_PORTS : Nat := 4

/-- Debug-accessory connect/disconnect notification broadcast to internal
listeners (embedded_services::type_c::comms::DebugAccessoryMessage). -/
structure DebugAccessoryMessage where
  port : Nat
  connected : Bool
deriving DecidableEq, Repr

/-- Port status changed event payload
(embedded_services::type_c::event::PortStatusChanged); the code in src/ reads
these per-condition flags off it. -/
structure PortStatusChanged where
  plugInsertedOrRemoved : Bool
  powerSwapCompleted : Bool
  pdHardReset : Bool
  dataSwapCompleted : Bool
  altModeEntered : Bool
  newPowerContractAsConsumer : Bool
  newPowerContractAsProvider : Bool
deriving DecidableEq, Repr

/-- Service::process_port_event (service/mod.rs lines 132-166). The cached
status array is the per-global-port cache; the result carries the optional
debug-accessory broadcast and the updated cache. The event itself is only
logged in the source, so it does not appear among the arguments here. -/
def process_port_event (cache : List PortStatus) (portId : Nat) (status : PortStatus) :
    Except PdError (Option DebugAccessoryMessage × List PortStatus) :=
  if portId ≥ MAX_SUPPORTED_PORTS then
    Except.error PdError.invalidPort
  else
    let oldStatus := cache.getD portId PortStatus.none
    let connectionChanged := status.isConnected ≠ oldStatus.isConnected
    let msg :=
      if connectionChanged ∧ (status.isDebugAccessory ∨ oldStatus.isDebugAccessory) then
        some { port := portId, connected := status.isConnected }
      else
        Option.none
    Except.ok (msg, cache.set portId status)

/-- Unconstrained power-policy broadcast payload
(embedded_services::power::policy::UnconstrainedState): whether the system is
unconstrained and how many unconstrained providers are available. -/
structure UnconstrainedState where
  unconstrained : Bool
  available : Nat
deriving DecidableEq, Repr

/-- Service::set_unconstrained_all (service/power.rs lines 29-40) as the list
of per-port set_unconstrained_power calls it issues. -/
def set_unconstrained_all (numPorts : Nat) (unconstrained : Bool) : List (Nat × Bool) :=
  (List.range numPorts).map (fun i => (i, unconstrained))

/-- The predicate service/power.rs uses to find its own unconstrained
consumer: cached status has an available sink contract and the
unconstrained_power flag. -/
def unconstrainedSinkFlagged (st : PortStatus) : Bool :=
  st.availableSinkContract.isSome ∧ st.unconstrainedPower

/-- Service::process_unconstrained_state_change (service/power.rs lines
43-98) as the list of (global port, unconstrained) set_unconstrained_power
calls it issues, in order. -/
def process_unconstrained_state_change (us : UnconstrainedState)
    (portStatus : List PortStatus) (numPorts : Nat) : List (Nat × Bool) :=
  if us.unconstrained then
    if us.available > 1 then
      set_unconstrained_all numPorts true
    else
      match (portStatus.take numPorts).findIdx? (fun st => unconstrainedSinkFlagged st) with
      | some unconstrainedIndex =>
        (List.range numPorts).map (fun i => (i, decide (i ≠ unconstrainedIndex)))
      | Option.none =>
        set_unconstrained_all numPorts true
  else
    set_unconstrained_all numPorts false

/-- The unconstrained-policy claim as the spec words it: all ports
unconstrained when more than one provider is available; when exactly one is
available and a cached own-port status carries it, that port constrained and
the rest unconstrained; otherwise all unconstrained while the system is
unconstrained; all constrained when it is not. Stated for comparison with
process_unconstrained_state_change. -/
def unconstrainedClaimC7 (us : UnconstrainedState)
    (portStatus : List PortStatus) (numPorts : Nat) : List (Nat × Bool) :=
  if us.unconstrained then
    if us.available > 1 then
      set_unconstrained_all numPorts true
    else
      match us.available, (portStatus.take numPorts).findIdx? (fun st => unconstrainedSinkFlagged st) with
      | 1, some unconstrainedIndex =>
        (List.range numPorts).map (fun i => (i, decide (i ≠ unconstrainedIndex)))
      | _, _ =>
        set_unconstrained_all numPorts true
  else
    set_unconstrained_all numPorts false

/-- The amended per-port policy: the same as the claim except that the
own-port-constrained case triggers whenever at most one provider is
available (the code tests available > 1 and falls through otherwise). -/
def unconstrainedAmendedC7 (us : UnconstrainedState)
    (portStatus : List PortStatus) (numPorts : Nat) : List (Nat × Bool) :=
  (List.range numPorts).map (fun i =>
    (i,
      if us.unconstrained then
        if us.available > 1 then
          true
        else
          match (portStatus.take numPorts).findIdx? (fun st => unconstrainedSinkFlagged st) with
          | some unconstrainedIndex => decide (i ≠ unconstrainedIndex)
          | Option.none => true
      else
        false))

/-- Cached status of a port that is the system's unconstrained consumer: an
available sink contract with the unconstrained_power flag set. -/
def exFlaggedStatus : PortStatus :=
  { PortStatus.none with availableSinkContract := some (0 : Nat), unconstrainedPower := true }

end Service

namespace Pd

/-
Model of the sink-ready deadline logic in type-c-service/src/wrapper/pd.rs.
Instants and durations are Nat milliseconds; the two PD transition-time
constants are parameters (they live in the external embedded-usb-pd crate),
the claims only depend on which one is chosen.
-/

/-- ControllerWrapper::check_sink_ready_timeout (wrapper/pd.rs lines 38-69).
deadlines is the per-port sink_ready_deadline array; the result is the
updated array. -/
def check_sink_ready_timeout (N : Nat) (deadlines : List (Option Nat))
    (status : PortStatus) (p : Nat) (newContract sinkReady : Bool)
    (now sprMs eprMs : Nat) : Except PdError (List (Option Nat)) :=
  if p ≥ N then
    Except.error PdError.invalidPort
  else
    let deadline := deadlines.getD p Option.none
    if newContract ∧ ¬ sinkReady then
      Except.ok (deadlines.set p (some (now + (if status.epr then eprMs else sprMs))))
    else if deadline.isSome ∧ (¬ status.isConnected ∨ status.availableSinkContract = Option.none ∨ sinkReady) then
      Except.ok (deadlines.set p Option.none)
    else
      Except.ok deadlines

/-- ControllerWrapper::wait_sink_ready_timeout (wrapper/pd.rs lines 74-89),
at the moment the timer for port i fires: the deadline for that port is
cleared and the port is reported; the function has no error path. -/
def fire_sink_ready_timeout (deadlines : List (Option Nat)) (i : Nat) :
    Nat × List (Option Nat) :=
  (i, deadlines.set i Option.none)

end Pd

namespace Ucsi

/-
Model of the UCSI front end in type-c-service/src/service/ucsi.rs.

PortPending / PortPendingIter come from embedded_services::type_c::event,
which is not among the checked-in sources; they are modelled from the spec as
a bitmap of pending global ports with a copyable ascending iterator (the spec
describes a round-robin cursor over the set bits). The PPM state machine and
the CCI/NotificationEnable wire types come from the external embedded-usb-pd
crate and are modelled from the spec (section 4.3): states Idle, Executing
and AwaitingAck driven by Command/CommandComplete inputs.
-/

/-- Modelled from the spec: PortPending, the bitmap of global ports with an
unacknowledged connector change. The bitmap is represented by the ascending
list of its set bit positions (kept sorted and duplicate-free by the
operations below, exactly the order a bit iterator walks them). -/
abbrev PortPending : Type := List Nat

/-- PortPending::none (the empty bitmap). -/
def PortPending.empty : PortPending := ([] : List Nat)

/-- PortPending::pend_port: insert a port number into the ascending set-bit
list (setting an already-set bit leaves the bitmap unchanged). -/
def PortPending.pend : PortPending → Nat → PortPending
  | [], p => [p]
  | q :: rest, p =>
    if p < q then p :: q :: rest
    else if p = q then q :: rest
    else q :: PortPending.pend rest p

/-- PortPending::clear_port (clearing one bit). -/
def PortPending.clear (m : PortPending) (p : Nat) : PortPending :=
  m.filter (fun q => decide (q ≠ p))

/-- PortPending::is_none (no bit set). -/
def PortPending.isNone (m : PortPending) : Bool := decide (m = PortPending.empty)

/-- Modelled from the spec: PortPendingIter, the copyable round-robin cursor
over a PortPending snapshot: the snapshot plus the position the next call
resumes from. -/
structure PortPendingIter where
  mask : List Nat
  pos : Nat
deriving DecidableEq, Repr

/-- The value PortPendingIter::next would return: the first pending port at
or after the cursor position (the smallest such, the mask being ascending). -/
def iterPeek (it : PortPendingIter) : Option Nat :=
  it.mask.find? (fun i => decide (it.pos ≤ i))

/-- PortPendingIter::next: the yielded port and the advanced iterator. -/
def iterNext (it : PortPendingIter) : Option Nat × PortPendingIter :=
  match iterPeek it with
  | some i => (some i, { mask := it.mask, pos := i + 1 })
  | Option.none => (Option.none, it)

/-- PortPending::into_iter: a fresh cursor over the bitmap. -/
def PortPending.intoIter (m : PortPending) : PortPendingIter :=
  { mask := m, pos := 0 }

/-- Modelled from the spec: NotificationEnable, the bitset of UCSI event
categories the OPM wants notifications for (external embedded-usb-pd crate);
one flag per category the code reads or sets. -/
structure NotificationEnable where
  cmdComplete : Bool
  connectChange : Bool
  powerDirectionChanged : Bool
  pdResetComplete : Bool
  connectorPartnerChanged : Bool
  negotiatedPowerLevelChange : Bool
  powerOpModeChange : Bool
  externalSupplyChange : Bool
  batteryChargingStatusChange : Bool
deriving DecidableEq, Repr

/-- NotificationEnable::default (all categories masked). -/
def NotificationEnable.defaultVal : NotificationEnable :=
  { cmdComplete := false
    connectChange := false
    powerDirectionChanged := false
    pdResetComplete := false
    connectorPartnerChanged := false
    negotiatedPowerLevelChange := false
    powerOpModeChange := false
    externalSupplyChange := false
    batteryChargingStatusChange := false }

/-- NotificationEnable::is_empty (no category enabled). -/
def NotificationEnable.isEmpty (n : NotificationEnable) : Bool :=
  !(n.cmdComplete || n.connectChange || n.powerDirectionChanged || n.pdResetComplete ||
    n.connectorPartnerChanged || n.negotiatedPowerLevelChange || n.powerOpModeChange ||
    n.externalSupplyChange || n.batteryChargingStatusChange)

/-- Modelled from the spec: ConnectorStatusChange, the per-category bitset
delivered with a connector-change notification (external embedded-usb-pd
crate); one flag per category the code sets. -/
structure ConnectorStatusChange where
  connectChange : Bool
  powerDirectionChanged : Bool
  pdResetComplete : Bool
  connectorPartnerChanged : Bool
  negotiatedPowerLevelChange : Bool
  powerOpModeChange : Bool
  externalSupplyChange : Bool
  batteryChargingStatusChange : Bool
deriving DecidableEq, Repr

/-- ConnectorStatusChange::default (no category set). -/
def ConnectorStatusChange.defaultVal : ConnectorStatusChange :=
  { connectChange := false
    powerDirectionChanged := false
    pdResetComplete := false
    connectorPartnerChanged := false
    negotiatedPowerLevelChange := false
    powerOpModeChange := false
    externalSupplyChange := false
    batteryChargingStatusChange := false }

/-- ConnectorStatusChange::filter_enabled: mask the event by the enabled
categories. -/
def ConnectorStatusChange.filterEnabled (e : ConnectorStatusChange)
    (n : NotificationEnable) : ConnectorStatusChange :=
  { connectChange := e.connectChange && n.connectChange
    powerDirectionChanged := e.powerDirectionChanged && n.powerDirectionChanged
    pdResetComplete := e.pdResetComplete && n.pdResetComplete
    connectorPartnerChanged := e.connectorPartnerChanged && n.connectorPartnerChanged
    negotiatedPowerLevelChange := e.negotiatedPowerLevelChange && n.negotiatedPowerLevelChange
    powerOpModeChange := e.powerOpModeChange && n.powerOpModeChange
    externalSupplyChange := e.externalSupplyChange && n.externalSupplyChange
    batteryChargingStatusChange := e.batteryChargingStatusChange && n.batteryChargingStatusChange }

/-- ConnectorStatusChange::is_none (no category set). -/
def ConnectorStatusChange.isNone (e : ConnectorStatusChange) : Bool :=
  !(e.connectChange || e.powerDirectionChanged || e.pdResetComplete ||
    e.connectorPartnerChanged || e.negotiatedPowerLevelChange || e.powerOpModeChange ||
    e.externalSupplyChange || e.batteryChargingStatusChange)

/-- Wire-format CCI header (external embedded-usb-pd crate, modelled from the
spec): flags plus the 1-based changed-connector number (0 = none). -/
structure Cci where
  busy : Bool
  error : Bool
  cmdComplete : Bool
  ackCommand : Bool
  resetComplete : Bool
  connectorChange : Nat
deriving DecidableEq, Repr

/-- Cci::default. -/
def Cci.defaultVal : Cci :=
  { busy := false
    error := false
    cmdComplete := false
    ackCommand := false
    resetComplete := false
    connectorChange := 0 }

/-- Cci::new_error. -/
def Cci.newError : Cci :=
  { Cci.defaultVal with error := true }

/-- Cci::new_reset_complete. -/
def Cci.newResetComplete : Cci :=
  { Cci.defaultVal with resetComplete := true }

/-- UCSI capability descriptor (ppm::GetCapability response payload); the
fields other than num_connectors are collapsed into restFields, which the
code never touches. -/
structure Capability where
  numConnectors : Nat
  restFields : Nat
deriving DecidableEq, Repr

/-- Acknowledgment payload of an ACK_CC_CI command: which of the two
acknowledgment kinds it carries. -/
structure Ack where
  commandComplete : Bool
  connectorChange : Bool
deriving DecidableEq, Repr

/-- PPM-level UCSI commands reaching process_ppm_command, plus PpmReset and
AckCcCi which the state machine routes specially; commands the code treats
as no-ops are collapsed into otherCommand. -/
inductive PpmCommand where
  | ppmReset
  | setNotificationEnable (n : NotificationEnable)
  | getCapability
  | ackCcCi (a : Ack)
  | otherCommand
deriving DecidableEq, Repr

/-- LPM command operations: the one the code special-cases plus a catch-all. -/
inductive LpmOperation where
  | getConnectorCapability
  | otherOperation
deriving DecidableEq, Repr

/-- Global LPM command: the addressed global port and the operation. -/
structure LpmCommand where
  port : Nat
  operation : LpmOperation
deriving DecidableEq, Repr

/-- A global UCSI command (ucsi::GlobalCommand). -/
inductive GlobalCommand where
  | ppm (c : PpmCommand)
  | lpm (c : LpmCommand)
deriving DecidableEq, Repr

/-- PPM-level response data. -/
inductive PpmResponseData where
  | getCapability (c : Capability)
deriving DecidableEq, Repr

/-- LPM-level response data; the connector capability override payload is
abstract, anything else the controller returns is otherData. -/
inductive LpmResponseData where
  | getConnectorCapability (c : Nat)
  | otherData (d : Nat)
deriving DecidableEq, Repr

/-- Global response data (ucsi::ResponseData). -/
inductive ResponseData where
  | ppm (d : PpmResponseData)
  | lpm (d : LpmResponseData)
deriving DecidableEq, Repr

/-- Modelled from the spec: the PPM state machine states of section 4.3
(Idle, Busy-executing-command, awaiting-ack); the machine itself lives in
the external embedded-usb-pd crate. -/
inductive PpmState where
  | idle
  | executing (c : GlobalCommand)
  | awaitingAck
deriving DecidableEq, Repr

/-- PPM state machine inputs (consume is fed the raw command or the
synthetic completion). -/
inductive PpmInput where
  | command (c : GlobalCommand)
  | commandComplete
deriving DecidableEq, Repr

/-- PPM state machine outputs (spec section 4.3). -/
inductive PpmOutput where
  | executeCommand (c : GlobalCommand)
  | opmNotifyCommandComplete
  | ackComplete (a : Ack)
  | resetComplete
  | opmNotifyBusy
deriving DecidableEq, Repr

/-- Modelled from the spec: the PPM state machine transition function
(embedded_usb_pd::ucsi::ppm::state_machine::GlobalStateMachine::consume).
PpmReset and AckCcCi bypass the two-phase execute flow; a command while a
command is executing or while an ack is outstanding is an invalid
transition; executing a command produces ExecuteCommand and the subsequent
CommandComplete input produces OpmNotifyCommandComplete. The error payload
is InvalidTransition, carried as Unit. -/
def ppmConsume (s : PpmState) (input : PpmInput) : Except Unit (Option PpmOutput × PpmState) :=
  match s, input with
  | PpmState.idle, PpmInput.command (GlobalCommand.ppm PpmCommand.ppmReset) =>
    Except.ok (some PpmOutput.resetComplete, PpmState.idle)
  | PpmState.idle, PpmInput.command (GlobalCommand.ppm (PpmCommand.ackCcCi a)) =>
    Except.ok (some (PpmOutput.ackComplete a), PpmState.idle)
  | PpmState.idle, PpmInput.command c =>
    Except.ok (some (PpmOutput.executeCommand c), PpmState.executing c)
  | PpmState.idle, PpmInput.commandComplete =>
    Except.error ()
  | PpmState.executing _, PpmInput.commandComplete =>
    Except.ok (some PpmOutput.opmNotifyCommandComplete, PpmState.awaitingAck)
  | PpmState.executing _, PpmInput.command _ =>
    Except.error ()
  | PpmState.awaitingAck, PpmInput.command (GlobalCommand.ppm PpmCommand.ppmReset) =>
    Except.ok (some PpmOutput.resetComplete, PpmState.idle)
  | PpmState.awaitingAck, PpmInput.command (GlobalCommand.ppm (PpmCommand.ackCcCi a)) =>
    Except.ok (some (PpmOutput.ackComplete a), PpmState.idle)
  | PpmState.awaitingAck, PpmInput.command _ =>
    Except.error ()
  | PpmState.awaitingAck, PpmInput.commandComplete =>
    Except.error ()

/-- UCSI state (service/ucsi.rs State). -/
structure State where
  ppmStateMachine : PpmState
  notificationsEnabled : NotificationEnable
  pendingPorts : PortPending
  pendingPortsIter : Option PortPendingIter
deriving DecidableEq

/-- State::default: machine idle, notifications masked, nothing pending. -/
def State.initial : State :=
  { ppmStateMachine := PpmState.idle
    notificationsEnabled := NotificationEnable.defaultVal
    pendingPorts := PortPending.empty
    pendingPortsIter := Option.none }

/-- Service configuration slice the UCSI code reads (service config):
the static capability descriptor and the optional per-port capability
override. -/
structure Config where
  ucsiCapabilities : Capability
  ucsiPortCapabilities : Option Nat
deriving DecidableEq, Repr

/-- CCI broadcast sent through the comms fabric
(comms::UcsiCiMessage: changed port plus whether to raise the OPM
notification). -/
structure UcsiCiMessage where
  port : Nat
  notifyOpm : Bool
deriving DecidableEq, Repr

/-- External UCSI response (external::UcsiResponse). -/
structure UcsiResponse where
  notifyOpm : Bool
  cci : Cci
  data : Except PdError (Option ResponseData)
deriving DecidableEq, Repr

/-- Result of one process_ucsi_command or process_ucsi_event call: the
response (commands only), the state left behind, the CCI broadcasts sent,
and whether the no-pending-ports warning was logged. -/
structure CmdResult where
  response : UcsiResponse
  state : State
  broadcasts : List UcsiCiMessage
  warned : Bool
deriving DecidableEq

/-- Service::set_cci_connector_change (service/ucsi.rs lines 83-90): peek the
round-robin cursor through a copy (Option::and_then copies the iterator, so
the stored cursor does not advance) and write the 1-based connector number,
or 0 when none is pending. -/
def setCciConnectorChange (s : State) (cci : Cci) : Cci :=
  match s.pendingPortsIter.bind (fun it => (iterNext it).fst) with
  | some currentPort => { cci with connectorChange := currentPort + 1 }
  | Option.none => { cci with connectorChange := 0 }

/-- Service::start_connector_changed_notify (service/ucsi.rs lines 93-106):
mem::take drains the pending bitmap into a fresh iterator, the unadvanced
copy is stored as the cursor, and the first pending port (read off a local
copy) is broadcast with the requested notify_opm flag. -/
def startConnectorChangedNotify (s : State) (notifyOpm : Bool) : State × List UcsiCiMessage :=
  let iter := PortPending.intoIter s.pendingPorts
  let s1 := { s with pendingPorts := PortPending.empty, pendingPortsIter := some iter }
  match (iterNext iter).fst with
  | some portId => (s1, [{ port := portId, notifyOpm := notifyOpm }])
  | Option.none => (s1, [])

/-- Result of ack_connector_change: updated state, updated CCI, broadcasts,
and whether the no-pending-ports warning fired. -/
structure AckResult where
  state : State
  cci : Cci
  broadcasts : List UcsiCiMessage
  warned : Bool
deriving DecidableEq

/-- Service::ack_connector_change (service/ucsi.rs lines 109-139): advance
the stored cursor (as_mut, so this one really advances); clear the
acknowledged port's bit; then either announce the next pending port, restart
the round robin over the refilled bitmap, or end the round robin; with no
current port, warn and clear the cursor. Finally rewrite the CCI
connector-change field from the resulting state. -/
def ackConnectorChange (s : State) (cci : Cci) : AckResult :=
  match s.pendingPortsIter with
  | some it =>
    match iterNext it with
    | (some currentPort, it1) =>
      let s1 := { s with
        pendingPortsIter := some it1
        pendingPorts := PortPending.clear s.pendingPorts currentPort }
      match (iterNext it1).fst with
      | some nextPort =>
        { state := s1
          cci := setCciConnectorChange s1 cci
          broadcasts := [{ port := nextPort, notifyOpm := false }]
          warned := false }
      | Option.none =>
        if ¬ PortPending.isNone s1.pendingPorts then
          let (s2, msgs) := startConnectorChangedNotify s1 false
          { state := s2, cci := setCciConnectorChange s2 cci, broadcasts := msgs, warned := false }
        else
          let s2 := { s1 with pendingPortsIter := Option.none }
          { state := s2, cci := setCciConnectorChange s2 cci, broadcasts := [], warned := false }
    | (Option.none, _) =>
      let s1 := { s with pendingPortsIter := Option.none }
      { state := s1, cci := setCciConnectorChange s1 cci, broadcasts := [], warned := true }
  | Option.none =>
    let s1 := { s with pendingPortsIter := Option.none }
    { state := s1, cci := setCciConnectorChange s1 cci, broadcasts := [], warned := true }

/-- Service::process_ppm_command (service/ucsi.rs lines 49-63) together with
the handlers it dispatches to: SetNotificationEnable stores the mask,
GetCapability copies the configured descriptor with num_connectors
overwritten by the live port count (a u8 cast in the source), anything else
is a no-op. numPorts is external::get_num_ports. -/
def processPpmCommand (cfg : Config) (numPorts : Nat) (s : State) (c : PpmCommand) :
    State × Except PdError (Option PpmResponseData) :=
  match c with
  | PpmCommand.setNotificationEnable n =>
    ({ s with notificationsEnabled := n }, Except.ok Option.none)
  | PpmCommand.getCapability =>
    (s, Except.ok (some (PpmResponseData.getCapability
      { cfg.ucsiCapabilities with numConnectors := numPorts % 256 })))
  | _ => (s, Except.ok Option.none)

/-- Service::process_lpm_command (service/ucsi.rs lines 65-80): a
GetConnectorCapability with a configured override answers from the config,
everything else is delegated to the controller (the lpmExec oracle). -/
def processLpmCommand (cfg : Config)
    (lpmExec : LpmCommand → Except PdError (Option LpmResponseData))
    (c : LpmCommand) : Except PdError (Option LpmResponseData) :=
  match c.operation with
  | LpmOperation.getConnectorCapability =>
    match cfg.ucsiPortCapabilities with
    | some caps => Except.ok (some (LpmResponseData.getConnectorCapability caps))
    | Option.none => lpmExec c
  | _ => lpmExec c

/-- The error response returned when the loop runs out of input (the
unexpected-end path, service/ucsi.rs lines 155-162). -/
def unexpectedEndResponse : UcsiResponse :=
  { notifyOpm := true, cci := Cci.newError, data := Except.error PdError.invalidMode }

/-- The error response returned on an invalid PPM state machine transition
(service/ucsi.rs lines 165-172). -/
def invalidTransitionResponse : UcsiResponse :=
  { notifyOpm := true, cci := Cci.newError, data := Except.error PdError.failed }

/-- The loop body of Service::process_ucsi_command (service/ucsi.rs lines
141-243). fuel bounds the iterations (two suffice: executing a command
queues the single CommandComplete input); running out of fuel mirrors the
unexpected-end path, as does a missing next input. -/
def ucsiLoop (cfg : Config) (numPorts : Nat)
    (lpmExec : LpmCommand → Except PdError (Option LpmResponseData))
    (fuel : Nat) (s : State) (nextInput : Option PpmInput)
    (response : UcsiResponse) (broadcasts : List UcsiCiMessage) : CmdResult :=
  match fuel with
  | 0 =>
    { response := unexpectedEndResponse, state := s, broadcasts := broadcasts, warned := false }
  | fuel' + 1 =>
    match nextInput with
    | Option.none =>
      { response := unexpectedEndResponse, state := s, broadcasts := broadcasts, warned := false }
    | some input =>
      match ppmConsume s.ppmStateMachine input with
      | Except.error _ =>
        { response := invalidTransitionResponse, state := s, broadcasts := broadcasts, warned := false }
      | Except.ok (output, ppm1) =>
        let s1 := { s with ppmStateMachine := ppm1 }
        match output with
        | some (PpmOutput.executeCommand c) =>
          match c with
          | GlobalCommand.ppm ppmCmd =>
            let (s2, dataPpm) := processPpmCommand cfg numPorts s1 ppmCmd
            let response1 := { response with
              data := dataPpm.map (fun inner => inner.map ResponseData.ppm) }
            ucsiLoop cfg numPorts lpmExec fuel' s2 (some PpmInput.commandComplete)
              response1 broadcasts
          | GlobalCommand.lpm lpmCmd =>
            let dataLpm := processLpmCommand cfg lpmExec lpmCmd
            let response1 := { response with
              data := dataLpm.map (fun inner => inner.map ResponseData.lpm) }
            ucsiLoop cfg numPorts lpmExec fuel' s1 (some PpmInput.commandComplete)
              response1 broadcasts
        | some PpmOutput.opmNotifyCommandComplete =>
          let cci1 := { response.cci with
            cmdComplete := true
            error := decide (response.data.isOk = false) }
          let cci2 := setCciConnectorChange s1 cci1
          { response := { response with
              notifyOpm := s1.notificationsEnabled.cmdComplete, cci := cci2 }
            state := s1
            broadcasts := broadcasts
            warned := false }
        | some (PpmOutput.ackComplete a) =>
          let response1 := { response with notifyOpm := s1.notificationsEnabled.cmdComplete }
          let response2 :=
            if a.commandComplete then
              { response1 with cci := { response1.cci with ackCommand := true } }
            else
              response1
          if a.connectorChange then
            let r := ackConnectorChange s1 response2.cci
            { response := { response2 with cci := r.cci }
              state := r.state
              broadcasts := broadcasts ++ r.broadcasts
              warned := r.warned }
          else
            { response := response2, state := s1, broadcasts := broadcasts, warned := false }
        | some PpmOutput.resetComplete =>
          let s2 := { s1 with notificationsEnabled := NotificationEnable.defaultVal }
          let cci := setCciConnectorChange s2 Cci.newResetComplete
          { response := { notifyOpm := false, cci := cci, data := response.data }
            state := s2
            broadcasts := broadcasts
            warned := false }
        | some PpmOutput.opmNotifyBusy =>
          let cci1 := { response.cci with busy := true }
          let cci2 := setCciConnectorChange s1 cci1
          { response := { response with
              notifyOpm := !s1.notificationsEnabled.isEmpty, cci := cci2 }
            state := s1
            broadcasts := broadcasts
            warned := false }
        | Option.none =>
          let cci := setCciConnectorChange s1 Cci.defaultVal
          { response := { notifyOpm := false, cci := cci, data := Except.ok Option.none }
            state := s1
            broadcasts := broadcasts
            warned := false }

/-- Service::process_ucsi_command (service/ucsi.rs lines 142-243). -/
def processUcsiCommand (cfg : Config) (numPorts : Nat)
    (lpmExec : LpmCommand → Except PdError (Option LpmResponseData))
    (s : State) (command : GlobalCommand) : CmdResult :=
  ucsiLoop cfg numPorts lpmExec 2 s (some (PpmInput.command command))
    { notifyOpm := false, cci := Cci.defaultVal, data := Except.ok Option.none } []

/-- Translation step of Service::process_ucsi_event (service/ucsi.rs lines
247-263): the generic port event rendered in the UCSI ConnectorStatusChange
vocabulary, one set_* call at a time. -/
def translatePortEvent (portEvent : Service.PortStatusChanged) : ConnectorStatusChange :=
  let e0 := ConnectorStatusChange.defaultVal
  let e1 := { e0 with connectChange := portEvent.plugInsertedOrRemoved }
  let e2 := { e1 with powerDirectionChanged := portEvent.powerSwapCompleted }
  let e3 := { e2 with pdResetComplete := portEvent.pdHardReset }
  let e4 :=
    if portEvent.dataSwapCompleted || portEvent.altModeEntered then
      { e3 with connectorPartnerChanged := true }
    else
      e3
  if portEvent.newPowerContractAsConsumer || portEvent.newPowerContractAsProvider then
    { e4 with
      negotiatedPowerLevelChange := true
      powerOpModeChange := true
      externalSupplyChange := true
      powerDirectionChanged := true
      batteryChargingStatusChange := true }
  else
    e4

/-- Queueing step of Service::process_ucsi_event (service/ucsi.rs lines
265-278): pend the port if the translated event survives the notification
mask, and start a round robin if none is active and something is pending. -/
def processUcsiEventCore (s : State) (portId : Nat) (ucsiEvent : ConnectorStatusChange) :
    State × List UcsiCiMessage :=
  let s1 :=
    if ¬ (ucsiEvent.filterEnabled s.notificationsEnabled).isNone then
      { s with pendingPorts := PortPending.pend s.pendingPorts portId }
    else
      s
  if s1.pendingPortsIter = Option.none ∧ ¬ PortPending.isNone s1.pendingPorts then
    startConnectorChangedNotify s1 s1.notificationsEnabled.connectChange
  else
    (s1, [])

/-- Service::process_ucsi_event (service/ucsi.rs lines 245-279). -/
def processUcsiEvent (s : State) (portId : Nat) (portEvent : Service.PortStatusChanged) :
    State × List UcsiCiMessage :=
  processUcsiEventCore s portId (translatePortEvent portEvent)

/-- The reachable-state invariant of the UCSI pending-port bookkeeping:
when no round robin is active the bitmap is empty (it is drained into the
cursor when one starts), and an active cursor always has a next pending
port. -/
def invB (s : State) : Bool :=
  match s.pendingPortsIter with
  | Option.none => PortPending.isNone s.pendingPorts
  | some it => (iterPeek it).isSome

/-- Propositional form of the pending-port invariant. -/
def Inv (s : State) : Prop := invB s = true

instance (s : State) : Decidable (Inv s) := by
  unfold Inv
  infer_instance

/-- The next pending port the state would announce: the peek of the stored
round-robin cursor. -/
def pendingPeek (s : State) : Option Nat :=
  s.pendingPortsIter.bind (fun it => (iterNext it).fst)

/-- Run of process_ucsi_command on an ACK_CC_CI acknowledging a connector
change (and optionally command completion). -/
def ackCcCiRun (cfg : Config) (numPorts : Nat)
    (lpmExec : LpmCommand → Except PdError (Option LpmResponseData))
    (s : State) (b : Bool) : CmdResult :=
  processUcsiCommand cfg numPorts lpmExec s
    (GlobalCommand.ppm (PpmCommand.ackCcCi { commandComplete := b, connectorChange := true }))

/-
Concrete example values: a small configuration and a command/event trace from
the initial state, used by the counterexamples and witnesses below.
-/

/-- Example configuration: one-connector descriptor, no port-capability
override. -/
def exCfg : Config :=
  { ucsiCapabilities := { numConnectors := 7, restFields := 42 }
    ucsiPortCapabilities := Option.none }

/-- Example LPM delegate: every delegated command completes with no data. -/
def exLpmExec : LpmCommand → Except PdError (Option LpmResponseData) :=
  fun _ => Except.ok Option.none

/-- Notification mask with only connect_change enabled. -/
def exNotif : NotificationEnable :=
  { NotificationEnable.defaultVal with connectChange := true }

/-- Port event with only plug_inserted_or_removed set. -/
def exPlugEvent : Service.PortStatusChanged :=
  { plugInsertedOrRemoved := true
    powerSwapCompleted := false
    pdHardReset := false
    dataSwapCompleted := false
    altModeEntered := false
    newPowerContractAsConsumer := false
    newPowerContractAsProvider := false }

/-- State after SetNotificationEnable(connect_change) from the initial
state (the machine is left awaiting the acknowledgment). -/
def exStateA : State :=
  (processUcsiCommand exCfg 1 exLpmExec State.initial
    (GlobalCommand.ppm (PpmCommand.setNotificationEnable exNotif))).state

/-- State after additionally acknowledging the command completion (machine
idle again, connect_change notifications enabled). -/
def exStateB : State :=
  (processUcsiCommand exCfg 1 exLpmExec exStateA
    (GlobalCommand.ppm (PpmCommand.ackCcCi { commandComplete := true, connectorChange := false }))).state

/-- State after a plug event on port 0 arrives: the port is pended and a
round robin starts, draining the bitmap into the cursor. -/
def exStateC : State :=
  (processUcsiEvent exStateB 0 exPlugEvent).fst

end Ucsi

/-
Theorems. Shared lemmas come first, then one theorem per claim (with its
counterexample and witness where those are called for).
-/

namespace Ucsi

/-- Advancing an iterator yields exactly its peek. -/
theorem iterNext_fst (it : PortPendingIter) : (iterNext it).fst = iterPeek it := by
  unfold iterNext
  cases h : iterPeek it <;> simp [h]

/-- A fresh cursor over a non-empty bitmap has a next port. -/
theorem iterPeek_intoIter_isSome (m : PortPending) (h : ¬ m = PortPending.empty) :
    (iterPeek (PortPending.intoIter m)).isSome = true := by
  cases m with
  | nil => exact absurd rfl h
  | cons q rest => simp [iterPeek, PortPending.intoIter, List.find?]

/-- The connector-change field written by set_cci_connector_change is
non-zero exactly when the stored cursor has a next pending port. -/
theorem setCci_connectorChange_iff (s : State) (cci : Cci) :
    ((setCciConnectorChange s cci).connectorChange ≠ 0) ↔ (pendingPeek s).isSome = true := by
  unfold setCciConnectorChange pendingPeek
  cases h : s.pendingPortsIter.bind (fun it => (iterNext it).fst) with
  | none => simp [h]
  | some p => simp [h]

/-- The CCI written by ack_connector_change is non-zero exactly when the
state it leaves behind still has a next pending port. -/
theorem ackConnectorChange_cc_iff (s : State) (cci : Cci) :
    (((ackConnectorChange s cci).cci.connectorChange ≠ 0) ↔
      (pendingPeek (ackConnectorChange s cci).state).isSome = true) := by
  unfold ackConnectorChange
  cases hIt : s.pendingPortsIter with
  | none =>
    exact setCci_connectorChange_iff { s with pendingPortsIter := Option.none } cci
  | some it =>
    cases hN : iterNext it with
    | mk cur it1 =>
      simp only [hN]
      cases cur with
      | none =>
        exact setCci_connectorChange_iff { s with pendingPortsIter := Option.none } cci
      | some curPort =>
        cases hN2 : (iterNext it1).fst with
        | some nextPort =>
          simp only [hN2]
          exact setCci_connectorChange_iff
            { s with pendingPortsIter := some it1
                     pendingPorts := PortPending.clear s.pendingPorts curPort } cci
        | none =>
          simp only [hN2]
          by_cases hEmpty : PortPending.isNone (PortPending.clear s.pendingPorts curPort) = true
          · simp only [hEmpty]
            exact setCci_connectorChange_iff
              { s with pendingPortsIter := Option.none
                       pendingPorts := PortPending.clear s.pendingPorts curPort } cci
          · simp only [Bool.not_eq_true] at hEmpty
            simp only [hEmpty]
            exact setCci_connectorChange_iff
              (startConnectorChangedNotify
                { s with pendingPortsIter := some it1
                         pendingPorts := PortPending.clear s.pendingPorts curPort } false).fst cci

/-- A bitmap whose is_none test is false is not the empty bitmap. -/
theorem ne_empty_of_isNone_false (m : PortPending)
    (h : PortPending.isNone m = false) : ¬ m = PortPending.empty := by
  intro hc
  rw [hc] at h
  simp [PortPending.isNone] at h

/-- A bitmap that fails the is_none test is not the empty bitmap. -/
theorem ne_empty_of_not_isNone (m : PortPending)
    (h : ¬ PortPending.isNone m = true) : ¬ m = PortPending.empty := by
  intro hc
  rw [hc] at h
  simp [PortPending.isNone] at h

/-- Starting a round robin over a non-empty bitmap leaves a valid state:
the stored cursor has a next port (and the bitmap was drained). -/
theorem start_preserves_inv (s : State) (b : Bool)
    (h : ¬ s.pendingPorts = PortPending.empty) :
    Inv (startConnectorChangedNotify s b).fst := by
  unfold startConnectorChangedNotify
  cases hP : (iterNext (PortPending.intoIter s.pendingPorts)).fst with
  | none =>
    simp only [hP]
    unfold Inv invB
    exact iterPeek_intoIter_isSome s.pendingPorts h
  | some portId =>
    simp only [hP]
    unfold Inv invB
    exact iterPeek_intoIter_isSome s.pendingPorts h

/-- Acknowledging a connector change preserves the pending-port invariant. -/
theorem ack_preserves_inv (s : State) (cci : Cci) (h : Inv s) :
    Inv (ackConnectorChange s cci).state := by
  unfold ackConnectorChange
  cases hIt : s.pendingPortsIter with
  | none =>
    unfold Inv invB at h ⊢
    rw [hIt] at h
    simpa using h
  | some it =>
    have h2 : (iterPeek it).isSome = true := by
      unfold Inv invB at h
      rw [hIt] at h
      exact h
    cases hN : iterNext it with
    | mk cur it1 =>
      simp only [hN]
      cases cur with
      | none =>
        have hfst := iterNext_fst it
        rw [hN] at hfst
        rw [← hfst] at h2
        simp at h2
      | some curPort =>
        cases hN2 : (iterNext it1).fst with
        | some nextPort =>
          simp only [hN2]
          rw [iterNext_fst] at hN2
          unfold Inv invB
          simp [hN2]
        | none =>
          simp only [hN2]
          by_cases hEmpty : PortPending.isNone (PortPending.clear s.pendingPorts curPort) = true
          · simp only [hEmpty]
            unfold Inv invB
            simpa using hEmpty
          · have hFalse : PortPending.isNone (PortPending.clear s.pendingPorts curPort) = false := by
              simpa using hEmpty
            simp only [hFalse]
            exact start_preserves_inv _ false (ne_empty_of_isNone_false _ hFalse)

/-- Queuing a connector-change event (any translated event) preserves the
pending-port invariant. -/
theorem eventCore_preserves_inv (s : State) (p : Nat) (u : ConnectorStatusChange)
    (h : Inv s) : Inv (processUcsiEventCore s p u).fst := by
  unfold processUcsiEventCore
  dsimp only
  set s1 := (if ¬ (u.filterEnabled s.notificationsEnabled).isNone = true then
      { s with pendingPorts := PortPending.pend s.pendingPorts p }
    else
      s) with hs1
  have hIterEq : s1.pendingPortsIter = s.pendingPortsIter := by
    rw [hs1]
    split <;> rfl
  split
  case isTrue hcond =>
    exact start_preserves_inv s1 _ (ne_empty_of_not_isNone _ hcond.2)
  case isFalse hcond =>
    show Inv s1
    cases hIt : s1.pendingPortsIter with
    | some it =>
      have hsIt : s.pendingPortsIter = some it := by rw [← hIterEq, hIt]
      have h2 : (iterPeek it).isSome = true := by
        unfold Inv invB at h
        rw [hsIt] at h
        exact h
      unfold Inv invB
      rw [hIt]
      exact h2
    | none =>
      unfold Inv invB
      rw [hIt]
      by_contra hbm
      exact hcond ⟨hIt, by simpa using hbm⟩

/-- Queuing a port event preserves the pending-port invariant. -/
theorem event_preserves_inv (s : State) (p : Nat) (e : Service.PortStatusChanged)
    (h : Inv s) : Inv (processUcsiEvent s p e).fst :=
  eventCore_preserves_inv s p (translatePortEvent e) h

/-- Processing a UCSI command preserves the pending-port invariant. -/
theorem command_preserves_inv (cfg : Config) (numPorts : Nat)
    (lpmExec : LpmCommand → Except PdError (Option LpmResponseData))
    (s : State) (cmd : GlobalCommand) (h : Inv s) :
    Inv (processUcsiCommand cfg numPorts lpmExec s cmd).state := by
  unfold processUcsiCommand
  cases hsm : s.ppmStateMachine with
  | executing c =>
    cases cmd with
    | ppm pc =>
      cases pc <;> simp only [ucsiLoop, hsm, ppmConsume] <;> exact h
    | lpm lc =>
      simp only [ucsiLoop, hsm, ppmConsume]
      exact h
  | idle =>
    cases cmd with
    | ppm pc =>
      cases pc with
      | ppmReset =>
        simp only [ucsiLoop, hsm, ppmConsume]
        exact h
      | setNotificationEnable n =>
        simp only [ucsiLoop, hsm, ppmConsume, processPpmCommand]
        exact h
      | getCapability =>
        simp only [ucsiLoop, hsm, ppmConsume, processPpmCommand]
        exact h
      | otherCommand =>
        simp only [ucsiLoop, hsm, ppmConsume, processPpmCommand]
        exact h
      | ackCcCi a =>
        simp only [ucsiLoop, hsm, ppmConsume]
        by_cases hac : a.connectorChange = true
        · simp only [hac, if_true]
          exact ack_preserves_inv _ _ h
        · simp only [Bool.not_eq_true] at hac
          simp [hac]
          exact h
    | lpm lc =>
      simp only [ucsiLoop, hsm, ppmConsume, processLpmCommand]
      exact h
  | awaitingAck =>
    cases cmd with
    | ppm pc =>
      cases pc with
      | ppmReset =>
        simp only [ucsiLoop, hsm, ppmConsume]
        exact h
      | setNotificationEnable n =>
        simp only [ucsiLoop, hsm, ppmConsume]
        exact h
      | getCapability =>
        simp only [ucsiLoop, hsm, ppmConsume]
        exact h
      | otherCommand =>
        simp only [ucsiLoop, hsm, ppmConsume]
        exact h
      | ackCcCi a =>
        simp only [ucsiLoop, hsm, ppmConsume]
        by_cases hac : a.connectorChange = true
        · simp only [hac, if_true]
          exact ack_preserves_inv _ _ h
        · simp only [Bool.not_eq_true] at hac
          simp [hac]
          exact h
    | lpm lc =>
      simp only [ucsiLoop, hsm, ppmConsume]
      exact h

/-- C1 (amended): on every return path of process_ucsi_command other than the
invalid-transition error path and an acknowledgment without connector_change
(which leaves the field 0), the connector_change field of the returned CCI is
non-zero if and only if the pending-port round-robin cursor still holds a
pending port after the operation completes; the PendingPorts bitmap itself is
drained into the cursor when a round robin starts, so the field tracks the
cursor, not the bitmap. -/
theorem command_cc_iff_pending (cfg : Config) (numPorts : Nat)
    (lpmExec : LpmCommand → Except PdError (Option LpmResponseData))
    (s : State) (cmd : GlobalCommand)
    (h1 : ppmConsume s.ppmStateMachine (PpmInput.command cmd) ≠ Except.error ())
    (h2 : ∀ a, cmd = GlobalCommand.ppm (PpmCommand.ackCcCi a) → a.connectorChange = true) :
    (((processUcsiCommand cfg numPorts lpmExec s cmd).response.cci.connectorChange ≠ 0) ↔
      (pendingPeek (processUcsiCommand cfg numPorts lpmExec s cmd).state).isSome = true) := by
  unfold processUcsiCommand
  cases hsm : s.ppmStateMachine with
  | executing c =>
    exfalso
    apply h1
    rw [hsm]
    cases cmd with
    | ppm pc => cases pc <;> rfl
    | lpm lc => rfl
  | idle =>
    cases cmd with
    | ppm pc =>
      cases pc with
      | ppmReset =>
        simp only [ucsiLoop, hsm, ppmConsume]
        exact setCci_connectorChange_iff _ _
      | setNotificationEnable n =>
        simp only [ucsiLoop, hsm, ppmConsume, processPpmCommand]
        exact setCci_connectorChange_iff _ _
      | getCapability =>
        simp only [ucsiLoop, hsm, ppmConsume, processPpmCommand]
        exact setCci_connectorChange_iff _ _
      | otherCommand =>
        simp only [ucsiLoop, hsm, ppmConsume, processPpmCommand]
        exact setCci_connectorChange_iff _ _
      | ackCcCi a =>
        have hcc : a.connectorChange = true := h2 a rfl
        simp only [ucsiLoop, hsm, ppmConsume, hcc, if_true]
        exact ackConnectorChange_cc_iff _ _
    | lpm lc =>
      simp only [ucsiLoop, hsm, ppmConsume, processLpmCommand]
      exact setCci_connectorChange_iff _ _
  | awaitingAck =>
    cases cmd with
    | ppm pc =>
      cases pc with
      | ppmReset =>
        simp only [ucsiLoop, hsm, ppmConsume]
        exact setCci_connectorChange_iff _ _
      | setNotificationEnable n =>
        exfalso
        apply h1
        rw [hsm]
        rfl
      | getCapability =>
        exfalso
        apply h1
        rw [hsm]
        rfl
      | otherCommand =>
        exfalso
        apply h1
        rw [hsm]
        rfl
      | ackCcCi a =>
        have hcc : a.connectorChange = true := h2 a rfl
        simp only [ucsiLoop, hsm, ppmConsume, hcc, if_true]
        exact ackConnectorChange_cc_iff _ _
    | lpm lc =>
      exfalso
      apply h1
      rw [hsm]
      rfl

/-- Behavior of ack_connector_change at a live cursor position: the
acknowledged port's bit is cleared from the arrival bitmap and the cursor
advances; an exhausted cursor is restarted over a non-empty bitmap (drained
again) or ended. -/
theorem ack_behavior (s : State) (cci : Cci) (it : PortPendingIter)
    (cur : Nat) (it1 : PortPendingIter)
    (hIt : s.pendingPortsIter = some it) (hN : iterNext it = (some cur, it1)) :
    ((iterPeek it1).isSome = true →
      (ackConnectorChange s cci).state.pendingPortsIter = some it1 ∧
      (ackConnectorChange s cci).state.pendingPorts = PortPending.clear s.pendingPorts cur) ∧
    (iterPeek it1 = Option.none → ¬ PortPending.clear s.pendingPorts cur = PortPending.empty →
      (ackConnectorChange s cci).state.pendingPortsIter =
        some (PortPending.intoIter (PortPending.clear s.pendingPorts cur)) ∧
      (ackConnectorChange s cci).state.pendingPorts = PortPending.empty) ∧
    (iterPeek it1 = Option.none → PortPending.clear s.pendingPorts cur = PortPending.empty →
      (ackConnectorChange s cci).state.pendingPortsIter = Option.none ∧
      (ackConnectorChange s cci).state.pendingPorts = PortPending.empty) := by
  unfold ackConnectorChange
  simp only [hIt, hN]
  cases hN2 : (iterNext it1).fst with
  | some nextPort =>
    simp only [hN2]
    rw [iterNext_fst] at hN2
    refine ⟨fun _ => ⟨by simp, by simp⟩, ?_, ?_⟩
    · intro hnone _
      rw [hN2] at hnone
      exact absurd hnone (by simp)
    · intro hnone _
      rw [hN2] at hnone
      exact absurd hnone (by simp)
  | none =>
    simp only [hN2]
    rw [iterNext_fst] at hN2
    by_cases hEmpty : PortPending.isNone (PortPending.clear s.pendingPorts cur) = true
    · simp only [hEmpty]
      have hEq : PortPending.clear s.pendingPorts cur = PortPending.empty := by
        unfold PortPending.isNone at hEmpty
        exact of_decide_eq_true hEmpty
      refine ⟨?_, ?_, ?_⟩
      · intro hsome
        rw [hN2] at hsome
        simp at hsome
      · intro _ hne
        exact absurd hEq hne
      · intro _ _
        exact ⟨by simp, hEq⟩
    · have hFalse : PortPending.isNone (PortPending.clear s.pendingPorts cur) = false := by
        simpa using hEmpty
      simp only [hFalse]
      have hNe : ¬ PortPending.clear s.pendingPorts cur = PortPending.empty :=
        ne_empty_of_isNone_false _ hFalse
      refine ⟨?_, ?_, ?_⟩
      · intro hsome
        rw [hN2] at hsome
        simp at hsome
      · intro _ _
        unfold startConnectorChangedNotify
        cases hP : (iterNext (PortPending.intoIter (PortPending.clear s.pendingPorts cur))).fst with
        | none => simp only [hP]; exact ⟨by simp, by simp⟩
        | some portId => simp only [hP]; exact ⟨by simp, by simp⟩
      · intro _ hEq
        exact absurd hEq hNe

/-- C1 counterexample: after a reachable trace (enable connect_change
notifications, acknowledge, plug event on port 0 starting a round robin that
drains the bitmap into the cursor, then GetCapability) the returned CCI has
connector_change = 1 while State.pending_ports is empty: non-zero
connector_change is not equivalent to a non-empty PendingPorts bitmap. -/
theorem c1_counterexample :
    ¬ (((processUcsiCommand exCfg 1 exLpmExec exStateC
          (GlobalCommand.ppm PpmCommand.getCapability)).response.cci.connectorChange ≠ 0) ↔
        ¬ (processUcsiCommand exCfg 1 exLpmExec exStateC
          (GlobalCommand.ppm PpmCommand.getCapability)).state.pendingPorts = PortPending.empty) := by
  decide

/-- C1 witness: the amended equivalence instantiated on the example trace,
where the cursor still holds port 0 after GetCapability. -/
theorem c1_witness :
    (((processUcsiCommand exCfg 1 exLpmExec exStateC
        (GlobalCommand.ppm PpmCommand.getCapability)).response.cci.connectorChange ≠ 0) ↔
      (pendingPeek (processUcsiCommand exCfg 1 exLpmExec exStateC
        (GlobalCommand.ppm PpmCommand.getCapability)).state).isSome = true) :=
  command_cc_iff_pending exCfg 1 exLpmExec exStateC (GlobalCommand.ppm PpmCommand.getCapability)
    (by decide) (by intro a h; simp at h)

/-- C2 counterexample: processing a plug event from a reachable state with
connect_change notifications enabled leaves the round-robin cursor Some while
the PendingPorts bitmap is empty (mem::take drained it), violating the
claimed cursor-iff-bitmap invariant. -/
theorem c2_counterexample :
    ¬ (((processUcsiEvent exStateB 0 exPlugEvent).fst.pendingPortsIter ≠ Option.none) ↔
        ¬ (processUcsiEvent exStateB 0 exPlugEvent).fst.pendingPorts = PortPending.empty) := by
  decide

/-- C2 (amended): the UCSI state maintains the invariant that the round-robin
cursor, when absent, leaves the bitmap empty and, when present, still holds a
next pending port (the bitmap is drained into the cursor when a round robin
starts, so it only holds changes that arrived afterwards); the invariant is
preserved by process_ucsi_event and by process_ucsi_command (including
connector-change acknowledgment); and acknowledging the port at the cursor
clears that port's bit from the bitmap and advances the cursor, restarting it
over a non-empty bitmap (drained again) or ending it when nothing remains. -/
theorem c2_cursor_invariant :
    (∀ s p e, Inv s → Inv (processUcsiEvent s p e).fst) ∧
    (∀ cfg numPorts lpmExec s cmd,
      Inv s → Inv (processUcsiCommand cfg numPorts lpmExec s cmd).state) ∧
    (∀ s cci it cur it1, s.pendingPortsIter = some it → iterNext it = (some cur, it1) →
      ((iterPeek it1).isSome = true →
        (ackConnectorChange s cci).state.pendingPortsIter = some it1 ∧
        (ackConnectorChange s cci).state.pendingPorts = PortPending.clear s.pendingPorts cur) ∧
      (iterPeek it1 = Option.none → ¬ PortPending.clear s.pendingPorts cur = PortPending.empty →
        (ackConnectorChange s cci).state.pendingPortsIter =
          some (PortPending.intoIter (PortPending.clear s.pendingPorts cur)) ∧
        (ackConnectorChange s cci).state.pendingPorts = PortPending.empty) ∧
      (iterPeek it1 = Option.none → PortPending.clear s.pendingPorts cur = PortPending.empty →
        (ackConnectorChange s cci).state.pendingPortsIter = Option.none ∧
        (ackConnectorChange s cci).state.pendingPorts = PortPending.empty)) :=
  ⟨event_preserves_inv, command_preserves_inv,
    fun s cci it cur it1 hIt hN => ack_behavior s cci it cur it1 hIt hN⟩

/-- C2 witness: the invariant instances on the example trace, and the
acknowledgment ending the round robin over the single pending port 0. -/
theorem c2_witness :
    Inv (processUcsiEvent State.initial 0 exPlugEvent).fst ∧
    Inv (processUcsiCommand exCfg 1 exLpmExec exStateC
      (GlobalCommand.ppm PpmCommand.getCapability)).state ∧
    (ackConnectorChange exStateC Cci.defaultVal).state.pendingPortsIter = Option.none :=
  ⟨c2_cursor_invariant.1 State.initial 0 exPlugEvent (by decide),
   c2_cursor_invariant.2.1 exCfg 1 exLpmExec exStateC
     (GlobalCommand.ppm PpmCommand.getCapability) (by decide),
   ((c2_cursor_invariant.2.2 exStateC Cci.defaultVal
       { mask := [0], pos := 0 } 0 { mask := [0], pos := 1 }
       (by decide) (by decide)).2.2 (by decide) (by decide)).1⟩

/-- C4: an ACK_CC_CI with connector_change acknowledged while no connector
changes are pending (cursor absent, bitmap empty) logs the warning, clears
the cursor, returns a CCI with connector_change 0, does not fail the command
(error is false, data is Ok), and still sets ack_command when the
acknowledgment also covers command completion. -/
theorem c4_ack_without_pending (cfg : Config) (numPorts : Nat)
    (lpmExec : LpmCommand → Except PdError (Option LpmResponseData))
    (s : State) (b : Bool)
    (hppm : s.ppmStateMachine = PpmState.idle ∨ s.ppmStateMachine = PpmState.awaitingAck)
    (_hbm : s.pendingPorts = PortPending.empty)
    (hit : s.pendingPortsIter = Option.none) :
    (ackCcCiRun cfg numPorts lpmExec s b).warned = true ∧
    (ackCcCiRun cfg numPorts lpmExec s b).state.pendingPortsIter = Option.none ∧
    (ackCcCiRun cfg numPorts lpmExec s b).response.cci.connectorChange = 0 ∧
    (ackCcCiRun cfg numPorts lpmExec s b).response.cci.error = false ∧
    (ackCcCiRun cfg numPorts lpmExec s b).response.data = Except.ok Option.none ∧
    (b = true → (ackCcCiRun cfg numPorts lpmExec s b).response.cci.ackCommand = true) := by
  unfold ackCcCiRun processUcsiCommand
  cases hppm with
  | inl hsm =>
    simp only [ucsiLoop, hsm, ppmConsume]
    unfold ackConnectorChange
    simp only [hit]
    cases b <;>
      simp [setCciConnectorChange, pendingPeek, Cci.defaultVal, Cci.newError, invalidTransitionResponse]
  | inr hsm =>
    simp only [ucsiLoop, hsm, ppmConsume]
    unfold ackConnectorChange
    simp only [hit]
    cases b <;>
      simp [setCciConnectorChange, pendingPeek, Cci.defaultVal, Cci.newError, invalidTransitionResponse]

/-- C4 witness: the acknowledgment from the pristine initial state. -/
theorem c4_witness :
    (ackCcCiRun exCfg 1 exLpmExec State.initial true).warned = true ∧
    (ackCcCiRun exCfg 1 exLpmExec State.initial true).state.pendingPortsIter = Option.none ∧
    (ackCcCiRun exCfg 1 exLpmExec State.initial true).response.cci.connectorChange = 0 ∧
    (ackCcCiRun exCfg 1 exLpmExec State.initial true).response.cci.error = false ∧
    (ackCcCiRun exCfg 1 exLpmExec State.initial true).response.data = Except.ok Option.none ∧
    (true = true → (ackCcCiRun exCfg 1 exLpmExec State.initial true).response.cci.ackCommand = true) :=
  c4_ack_without_pending exCfg 1 exLpmExec State.initial true (Or.inl rfl) rfl rfl

/-- C10: executing the UCSI GetCapability command returns the configured
capability descriptor with num_connectors overwritten by the live
controller-registered port count, all other fields unchanged. -/
theorem c10_get_capability (cfg : Config) (numPorts : Nat)
    (lpmExec : LpmCommand → Except PdError (Option LpmResponseData)) (s : State)
    (hppm : s.ppmStateMachine = PpmState.idle) (hn : numPorts < 256) :
    (processUcsiCommand cfg numPorts lpmExec s
        (GlobalCommand.ppm PpmCommand.getCapability)).response.data =
      Except.ok (some (ResponseData.ppm (PpmResponseData.getCapability
        { numConnectors := numPorts
          restFields := cfg.ucsiCapabilities.restFields }))) := by
  unfold processUcsiCommand
  simp only [ucsiLoop, hppm, ppmConsume, processPpmCommand]
  simp [Except.map, Nat.mod_eq_of_lt hn]

/-- C10 witness: GetCapability on the example configuration with three live
ports returns the descriptor with num_connectors 3 and restFields intact. -/
theorem c10_witness :
    (processUcsiCommand exCfg 3 exLpmExec State.initial
        (GlobalCommand.ppm PpmCommand.getCapability)).response.data =
      Except.ok (some (ResponseData.ppm (PpmResponseData.getCapability
        { numConnectors := 3
          restFields := exCfg.ucsiCapabilities.restFields }))) :=
  c10_get_capability exCfg 3 exLpmExec State.initial rfl (by decide)

end Ucsi

namespace Wrapper

/-- C3: at the failing input — a two-port wrapper with distinct cached events
for ports 0 and 1 and commands addressed to port 1 — GetEvent returns and
clears port 0's cached bitset (1, leaving [0, 2]) instead of port 1's, and
PortStatus live-reads port 0's status (connection present) instead of port
1's: process_port_command ignores the addressed port. -/
theorem c3_port_command_ignores_addressed_port :
    (process_port_command [1, 2] exDriverStatus { port := 1, data := PortCommandData.getEvent } =
      (Except.ok (PortResponseData.event 1), [0, 2])) ∧
    (process_port_command [1, 2] exDriverStatus { port := 1, data := PortCommandData.getEvent } ≠
      (Except.ok (PortResponseData.event 2), [1, 0])) ∧
    (process_port_command [1, 2] exDriverStatus { port := 1, data := PortCommandData.portStatus } =
      (Except.ok (PortResponseData.portStatus
        { PortStatus.none with connectionPresent := true }), [1, 2])) := by
  refine ⟨rfl, by decide, rfl⟩

/-- C5: get_power_device at the boundary local port p = N (here N = 1): the
port.0 > N check passes p = N through and the power[p] index is out of
bounds (the modelled panic, Option.none) instead of the claimed
Err(InvalidPort); p = N + 1 returns the error and p < N the device. -/
theorem c5_get_power_device_boundary :
    get_power_device 1 1 = Option.none ∧
    get_power_device 1 2 = some (Except.error PdError.invalidPort) ∧
    get_power_device 1 0 = some (Except.ok 0) := by
  decide

/-- C6: every power-policy request delivered to a valid port (p < N, as
wait_power_command guarantees) produces exactly one response; ConnectConsumer
enables the sink path and replies Complete, or Failed when the driver call
errors; Disconnect disables it symmetrically. -/
theorem c6_power_command_exactly_one_response (N p : Nat) (cmd : RequestData)
    (drv : Bool → Except DriverError Unit) (hp : p < N) :
    ((process_power_command N p cmd drv).map (fun eff => eff.responses.length) = some 1) ∧
    (∀ cap, cmd = RequestData.connectConsumer cap →
      process_power_command N p cmd drv = some (match drv true with
        | Except.ok _ =>
          { sinkPathCalls := [true], responses := [Except.ok PolicyResponseData.complete] }
        | Except.error _ =>
          { sinkPathCalls := [true], responses := [Except.error PolicyError.failed] })) ∧
    (cmd = RequestData.disconnect →
      process_power_command N p cmd drv = some (match drv false with
        | Except.ok _ =>
          { sinkPathCalls := [false], responses := [Except.ok PolicyResponseData.complete] }
        | Except.error _ =>
          { sinkPathCalls := [false], responses := [Except.error PolicyError.failed] })) := by
  have hgp : get_power_device N p = some (Except.ok p) := by
    unfold get_power_device
    rw [if_neg (by omega), if_pos hp]
  refine ⟨?_, ?_, ?_⟩
  · unfold process_power_command
    rw [hgp]
    cases cmd with
    | connectConsumer cap => cases hd : drv true <;> simp [hd]
    | disconnect => cases hd : drv false <;> simp [hd]
    | otherRequest => simp
  · intro cap hc
    subst hc
    unfold process_power_command
    rw [hgp]
    cases hd : drv true <;> simp [hd]
  · intro hc
    subst hc
    unfold process_power_command
    rw [hgp]
    cases hd : drv false <;> simp [hd]

/-- C6 witness: a Disconnect on port 0 of a one-port wrapper with a healthy
driver gets the single Complete response after disabling the sink path. -/
theorem c6_witness :
    ((process_power_command 1 0 RequestData.disconnect
        (fun _ => Except.ok ())).map (fun eff => eff.responses.length) = some 1) ∧
    (∀ cap, RequestData.disconnect = RequestData.connectConsumer cap →
      process_power_command 1 0 RequestData.disconnect (fun _ => Except.ok ()) =
        some (match (fun (_ : Bool) => Except.ok (ε := DriverError) ()) true with
          | Except.ok _ =>
            { sinkPathCalls := [true], responses := [Except.ok PolicyResponseData.complete] }
          | Except.error _ =>
            { sinkPathCalls := [true], responses := [Except.error PolicyError.failed] })) ∧
    (RequestData.disconnect = RequestData.disconnect →
      process_power_command 1 0 RequestData.disconnect (fun _ => Except.ok ()) =
        some (match (fun (_ : Bool) => Except.ok (ε := DriverError) ()) false with
          | Except.ok _ =>
            { sinkPathCalls := [false], responses := [Except.ok PolicyResponseData.complete] }
          | Except.error _ =>
            { sinkPathCalls := [false], responses := [Except.error PolicyError.failed] })) :=
  c6_power_command_exactly_one_response 1 0 RequestData.disconnect
    (fun _ => Except.ok ()) (by decide)

end Wrapper

namespace Service

/-- C7 counterexample: with the system flagged unconstrained but zero
providers available and port 0's cached status carrying an available sink
contract with unconstrained power, the code constrains port 0 (its
own-port branch tests available at most 1), while the claim's branches
(exactly one available, otherwise all unconstrained) require port 0
unconstrained. -/
theorem c7_counterexample :
    process_unconstrained_state_change { unconstrained := true, available := 0 }
        [exFlaggedStatus] 1 ≠
      unconstrainedClaimC7 { unconstrained := true, available := 0 } [exFlaggedStatus] 1 := by
  decide

/-- C7 (amended): the per-port unconstrained settings issued by
process_unconstrained_state_change follow the amended policy: all ports
unconstrained when more than one provider is available; when at most one is
available and a cached own-port status carries the unconstrained consumer,
that port constrained and the rest unconstrained; otherwise all
unconstrained while the system is unconstrained, and all constrained when it
is not. -/
theorem c7_unconstrained_policy (us : UnconstrainedState)
    (ps : List PortStatus) (n : Nat) :
    process_unconstrained_state_change us ps n = unconstrainedAmendedC7 us ps n := by
  unfold process_unconstrained_state_change unconstrainedAmendedC7 set_unconstrained_all
  by_cases hu : us.unconstrained = true
  · simp only [hu, if_true]
    by_cases ha : us.available > 1
    · simp [ha]
    · simp only [ha, if_false]
      cases hf : (ps.take n).findIdx? (fun st => unconstrainedSinkFlagged st) with
      | none => simp [hf]
      | some idx => simp [hf]
  · simp only [Bool.not_eq_true] at hu
    simp [hu]

/-- C9: processing a PortStatusChanged for a valid port answers Ok,
overwrites the cached status for that port unconditionally, and carries the
debug-accessory notification exactly when connectedness flipped between the
old cached status and the new one and either of the two is a debug
accessory; the notification names the port and its new connectedness. -/
theorem c9_port_event (cache : List PortStatus) (portId : Nat) (status : PortStatus)
    (hp : portId < MAX_SUPPORTED_PORTS) :
    ∃ msg newCache,
      process_port_event cache portId status = Except.ok (msg, newCache) ∧
      newCache = cache.set portId status ∧
      (msg ≠ Option.none ↔
        (status.isConnected ≠ (cache.getD portId PortStatus.none).isConnected ∧
          (status.isDebugAccessory = true ∨
            (cache.getD portId PortStatus.none).isDebugAccessory = true))) ∧
      (∀ m, msg = some m → m.port = portId ∧ m.connected = status.isConnected) := by
  unfold process_port_event
  rw [if_neg (by omega)]
  refine ⟨_, _, rfl, rfl, ?_, ?_⟩
  · constructor
    · intro hne
      by_contra hcond
      rw [if_neg ?_] at hne
      · exact hne rfl
      · intro hc
        exact hcond ⟨hc.1, by simpa using hc.2⟩
    · intro hcond
      rw [if_pos ⟨hcond.1, by simpa using hcond.2⟩]
      simp
  · intro m hm
    by_cases hcond : (status.isConnected ≠ (cache.getD portId PortStatus.none).isConnected) ∧
        ((status.isDebugAccessory : Prop) ∨ ((cache.getD portId PortStatus.none).isDebugAccessory : Prop))
    · rw [if_pos hcond] at hm
      cases hm
      exact ⟨rfl, rfl⟩
    · rw [if_neg hcond] at hm
      cases hm

/-- C9 witness: a debug-accessory connection on port 0 over an all-default
cache is reported and cached. -/
theorem c9_witness :
    ∃ msg newCache,
      process_port_event [PortStatus.none, PortStatus.none, PortStatus.none, PortStatus.none] 0
          { PortStatus.none with connectionPresent := true, debugConnection := true } =
        Except.ok (msg, newCache) ∧
      newCache = [PortStatus.none, PortStatus.none, PortStatus.none, PortStatus.none].set 0
        { PortStatus.none with connectionPresent := true, debugConnection := true } ∧
      (msg ≠ Option.none ↔
        (({ PortStatus.none with connectionPresent := true, debugConnection := true } :
            PortStatus).isConnected ≠
            (([PortStatus.none, PortStatus.none, PortStatus.none, PortStatus.none].getD 0
              PortStatus.none)).isConnected ∧
          (({ PortStatus.none with connectionPresent := true, debugConnection := true } :
              PortStatus).isDebugAccessory = true ∨
            (([PortStatus.none, PortStatus.none, PortStatus.none, PortStatus.none].getD 0
              PortStatus.none)).isDebugAccessory = true))) ∧
      (∀ m, msg = some m → m.port = 0 ∧ m.connected =
        ({ PortStatus.none with connectionPresent := true, debugConnection := true } :
          PortStatus).isConnected) :=
  c9_port_event [PortStatus.none, PortStatus.none, PortStatus.none, PortStatus.none] 0
    { PortStatus.none with connectionPresent := true, debugConnection := true } (by decide)

end Service

namespace Pd

/-- C8: the sink-ready deadline bookkeeping of check_sink_ready_timeout and
wait_sink_ready_timeout: a new consumer contract without sink-ready reported
sets the deadline to now plus the EPR transition-time constant when the
status has the EPR flag and the SPR constant otherwise; otherwise a set
deadline is cleared when the port is disconnected, the available sink
contract is gone, or sink-ready is reported; and firing clears the deadline
and reports the port with no error path. -/
theorem c8_sink_ready_deadline (N : Nat) (deadlines : List (Option Nat))
    (status : PortStatus) (p : Nat) (newContract sinkReady : Bool)
    (now sprMs eprMs : Nat) (hp : p < N) :
    (newContract = true → sinkReady = false →
      check_sink_ready_timeout N deadlines status p newContract sinkReady now sprMs eprMs =
        Except.ok (deadlines.set p (some (now + (if status.epr then eprMs else sprMs))))) ∧
    (¬ (newContract = true ∧ sinkReady = false) →
      (deadlines.getD p Option.none).isSome = true →
      (status.isConnected = false ∨ status.availableSinkContract = Option.none ∨
        sinkReady = true) →
      check_sink_ready_timeout N deadlines status p newContract sinkReady now sprMs eprMs =
        Except.ok (deadlines.set p Option.none)) ∧
    (∀ i, fire_sink_ready_timeout deadlines i = (i, deadlines.set i Option.none)) := by
  refine ⟨?_, ?_, fun i => rfl⟩
  · intro hnc hsr
    unfold check_sink_ready_timeout
    rw [if_neg (by omega), if_pos ⟨hnc, by simp [hsr]⟩]
  · intro hno hdl hcond
    unfold check_sink_ready_timeout
    rw [if_neg (by omega), if_neg ?_, if_pos ?_]
    · refine ⟨hdl, ?_⟩
      rcases hcond with hc | hc | hc
      · exact Or.inl (by simp [PortStatus.isConnected] at hc ⊢; exact hc)
      · exact Or.inr (Or.inl hc)
      · exact Or.inr (Or.inr (by simp [hc]))
    · intro hc
      exact hno ⟨hc.1, by simpa using hc.2⟩

/-- C8 witness: a new SPR consumer contract on port 0 with no sink-ready sets
the deadline to now + sprMs, and firing that deadline clears it. -/
theorem c8_witness :
    (true = true → false = false →
      check_sink_ready_timeout 1 [Option.none] PortStatus.none 0 true false 5 10 20 =
        Except.ok ([Option.none].set 0 (some (5 + (if PortStatus.none.epr then 20 else 10))))) ∧
    (¬ (true = true ∧ false = false) →
      (([Option.none] : List (Option Nat)).getD 0 Option.none).isSome = true →
      (PortStatus.none.isConnected = false ∨
        PortStatus.none.availableSinkContract = Option.none ∨ false = true) →
      check_sink_ready_timeout 1 [Option.none] PortStatus.none 0 true false 5 10 20 =
        Except.ok ([Option.none].set 0 Option.none)) ∧
    (∀ i, fire_sink_ready_timeout [Option.none] i = (i, [Option.none].set i Option.none)) :=
  c8_sink_ready_deadline 1 [Option.none] PortStatus.none 0 true false 5 10 20 (by decide)

end Pd

end EmbeddedServices
